import Mathlib

/-
  Verification development for the MIDIPiano device classes
  (MIDIInDevice.h/.cpp, MIDIOutDevice.h/.cpp).

  The definitions below are a shallow embedding of the C++ sources:
  machine integers are Nat with explicit `% 2 ^ 32` (DWORD) and `% 256`
  (unsigned char) where the C++ performs a conversion; driver calls
  (midiIn*/midiOut*) are modelled by passing their MMRESULT outcome in as a
  parameter (0 = MMSYSERR_NOERROR); thrown C++ exceptions are modelled as an
  `Option CppExc` return component, and C++ catch-clause matching is modelled
  by the class hierarchy declared in the two headers.
-/

namespace MIDI

/-- Modelled from the spec: `midi.h` is not among the sources, only its
constants `midi::SHORT_MSG_SHIFT` and `midi::SHORT_MSG_MASK` are used.
Spec section 6 fixes the short-message layout as byte 0 = status,
byte 1 = data byte 1, byte 2 = data byte 2, which forces the per-byte
shift constant used by Pack/Unpack to be 8. -/
def SHORT_MSG_SHIFT : Nat := 8

/-- Modelled from the spec: `midi.h` is not among the sources. Spec section 6
puts the channel in the low nibble of byte 0 (status = command combined with
channel), so the channel mask is the low four bits. -/
def SHORT_MSG_MASK : Nat := 15

/-- DWORD is a 32-bit unsigned integer; storing into one reduces mod 2^32. -/
def dwordMod : Nat := 2 ^ 32

/-- CMIDIOutDevice::PackShortMsg (3 data arguments), MIDIOutDevice.cpp
lines 336-343:
`Msg = Status; Msg |= DataByte1 << SHORT_MSG_SHIFT; Msg |= DataByte2 << SHORT_MSG_SHIFT;`
Arguments stand for unsigned char values (< 256). Note that the source
shifts DataByte2 by `SHORT_MSG_SHIFT`, not `SHORT_MSG_SHIFT * 2`. -/
def packShortMsg3 (Status DataByte1 DataByte2 : Nat) : Nat :=
  ((Status ||| (DataByte1 <<< SHORT_MSG_SHIFT)) |||
    (DataByte2 <<< SHORT_MSG_SHIFT)) % dwordMod

/-- CMIDIInDevice::UnpackShortMsg (3 out-arguments), MIDIInDevice.cpp
lines 396-405: each component is a cast of a shifted copy of Msg to
unsigned char (`% 256`). Returns (Status, DataByte1, DataByte2). -/
def unpackShortMsg3 (Msg : Nat) : Nat × Nat × Nat :=
  (Msg % 256,
   (Msg >>> SHORT_MSG_SHIFT) % 256,
   (Msg >>> (SHORT_MSG_SHIFT * 2)) % 256)

/-- CMIDIOutDevice::PackShortMsg (channel form), MIDIOutDevice.cpp
lines 347-355:
`Msg = Command | Channel; Msg |= DataByte1 << SHORT_MSG_SHIFT; Msg |= DataByte2 << SHORT_MSG_SHIFT * 2;`
Arguments stand for unsigned char values (< 256). -/
def packShortMsg4 (Command Channel DataByte1 DataByte2 : Nat) : Nat :=
  (((Command ||| Channel) ||| (DataByte1 <<< SHORT_MSG_SHIFT)) |||
    (DataByte2 <<< (SHORT_MSG_SHIFT * 2))) % dwordMod

/-- CMIDIInDevice::UnpackShortMsg (channel form), MIDIInDevice.cpp
lines 409-420: `Command = (unsigned char)(Msg & ~SHORT_MSG_MASK)` where `~`
is 32-bit complement, `Channel = (unsigned char)(Msg & SHORT_MSG_MASK)`, and
the data bytes as in the 3-argument form.
Returns (Command, Channel, DataByte1, DataByte2). -/
def unpackShortMsg4 (Msg : Nat) : Nat × Nat × Nat × Nat :=
  ((Msg &&& (dwordMod - 1 - SHORT_MSG_MASK)) % 256,
   (Msg &&& SHORT_MSG_MASK) % 256,
   (Msg >>> SHORT_MSG_SHIFT) % 256,
   (Msg >>> (SHORT_MSG_SHIFT * 2)) % 256)

/-- C++ classes appearing in the two headers, for exception-handler
matching. -/
inductive CppClass
  | stdException
  | stdBadAlloc
  | midiInException
  | midiInMemFailure
  | midiInEventFailure
  | midiInThreadFailure
  | midiInDeviceClass
  | midiOutException
  | midiOutMemFailure
  | midiOutEventFailure
  | midiOutThreadFailure
  | midiOutDeviceClass
deriving DecidableEq

/-- Proper base classes of each class, as declared in MIDIInDevice.h and
MIDIOutDevice.h: CMIDIInException/CMIDIOutException and the event/thread
failure classes derive from std::exception; the memory failure classes
derive from std::bad_alloc (which derives from std::exception);
CMIDIInDevice and CMIDIOutDevice are not exception classes and have no
bases. -/
def strictBases : CppClass → List CppClass
  | .stdBadAlloc => [.stdException]
  | .midiInException => [.stdException]
  | .midiInMemFailure => [.stdBadAlloc, .stdException]
  | .midiInEventFailure => [.stdException]
  | .midiInThreadFailure => [.stdException]
  | .midiOutException => [.stdException]
  | .midiOutMemFailure => [.stdBadAlloc, .stdException]
  | .midiOutEventFailure => [.stdException]
  | .midiOutThreadFailure => [.stdException]
  | _ => []

/-- C++ catch-clause matching: a handler of reference type `handler` catches
a thrown object of dynamic class `dyn` iff the classes are equal or `dyn`
derives from `handler`. -/
def catches (dyn handler : CppClass) : Bool :=
  dyn == handler || (strictBases dyn).contains handler

/-- A thrown C++ exception: its dynamic class, plus the MMRESULT code for the
driver-error classes (0 for the others). -/
structure CppExc where
  cls : CppClass
  code : Nat
deriving DecidableEq

/-- CHeaderQueue::AddHeader (identical in MIDIInDevice.cpp lines 103-111 and
MIDIOutDevice.cpp lines 100-108): `m_HdrQueue.push(Header)` enqueues at the
tail. Headers are represented by numeric identities. -/
def addHeader (q : List Nat) (hdr : Nat) : List Nat := q ++ [hdr]

/-- CHeaderQueue::RemoveHeader (MIDIInDevice.cpp lines 115-126,
MIDIOutDevice.cpp lines 112-123): if the queue is non-empty, the front
header is deleted (returned here as the reclaimed element) and popped;
no-op on an empty queue. -/
def removeHeader : List Nat → List Nat × Option Nat
  | [] => ([], none)
  | h :: t => (t, some h)

/-- CHeaderQueue::RemoveAll (MIDIInDevice.cpp lines 130-141,
MIDIOutDevice.cpp lines 127-138): repeatedly deletes the front element
until the queue is empty. -/
def removeAll : List Nat → List Nat
  | [] => []
  | _ :: t => removeAll t

/-- One application-visible operation on the header queue: a submission
(AddHeader with a given header identity) or a reclamation (RemoveHeader). -/
inductive QueueOp
  | add (hdr : Nat)
  | remove
deriving DecidableEq

/-- Executes one QueueOp on (queue, reclamation log): `add` enqueues at the
tail, `remove` reclaims the front (appending the deleted header to the
log) via removeHeader. -/
def queueStep : List Nat × List Nat → QueueOp → List Nat × List Nat
  | (q, log), .add hdr => (addHeader q hdr, log)
  | (q, log), .remove =>
    match removeHeader q with
    | (q2, none) => (q2, log)
    | (q2, some h) => (q2, log ++ [h])

/-- Runs a sequence of queue operations from the empty queue, returning the
final queue contents and the reclamation log in order. -/
def queueRun (ops : List QueueOp) : List Nat × List Nat :=
  ops.foldl queueStep ([], [])

/-- The headers submitted by a sequence of operations, in submission
order. -/
def submissions (ops : List QueueOp) : List Nat :=
  ops.filterMap fun op =>
    match op with
    | .add hdr => some hdr
    | .remove => none

/-- CMIDIInDevice state enum, MIDIInDevice.h line 245. -/
inductive InState
  | CLOSED
  | OPENED
  | RECORDING
deriving DecidableEq

/-- Abstract state of a CMIDIInDevice object: the state enum, the header
queue contents, the number of `::SetEvent(m_Event)` calls issued so far
(the completion signal), and whether `m_DevHandle` currently holds an open
device handle. -/
structure InDevice where
  state : InState
  queue : List Nat
  eventSets : Nat
  handleOwned : Bool
deriving DecidableEq

/-- CMIDIInDevice::StopRecording, MIDIInDevice.cpp lines 335-352: if
recording, set the state to OPENED, signal the worker once, reset the
driver (result ignored) and empty the header queue via RemoveAll. -/
def inStopRecording (d : InDevice) : InDevice :=
  if d.state = .RECORDING then
    { d with state := .OPENED, eventSets := d.eventSets + 1,
             queue := removeAll d.queue }
  else d

/-- CMIDIInDevice::Close, MIDIInDevice.cpp lines 232-256: if recording,
first StopRecording; then, if opened, call `::midiInClose` (outcome
`closeResult`); on success the state becomes CLOSED and the handle is
released, on failure a CMIDIInException is thrown (state and handle
unchanged). -/
def inClose (closeResult : Nat) (d : InDevice) : InDevice × Option CppExc :=
  let d1 := inStopRecording d
  if d1.state = .OPENED then
    if closeResult = 0 then
      ({ d1 with state := .CLOSED, handleOwned := false }, none)
    else
      (d1, some ⟨.midiInException, closeResult⟩)
  else (d1, none)

/-- CMIDIInDevice::Open, MIDIInDevice.cpp lines 206-228: first Close (an
exception from it propagates), then call `::midiInOpen` (outcome
`openResult`); on success the state becomes OPENED and a handle is owned,
on failure a CMIDIInException is thrown. -/
def inOpen (closeResult openResult : Nat) (d : InDevice) :
    InDevice × Option CppExc :=
  match inClose closeResult d with
  | (d1, some e) => (d1, some e)
  | (d1, none) =>
    if openResult = 0 then
      ({ d1 with state := .OPENED, handleOwned := true }, none)
    else
      (d1, some ⟨.midiInException, openResult⟩)

/-- CMIDIInDevice::StartRecording, MIDIInDevice.cpp lines 297-331: only
acts when OPENED. If `::CreateThread` fails (`threadOk = false`), throws
CMIDIInThreadFailure before any state change. Otherwise the state is set
to RECORDING and `::midiInStart` is called (outcome `startResult`); on
driver failure the state reverts to OPENED, the signal is set once, and a
CMIDIInException is thrown. -/
def inStartRecording (threadOk : Bool) (startResult : Nat) (d : InDevice) :
    InDevice × Option CppExc :=
  if d.state = .OPENED then
    if !threadOk then
      (d, some ⟨.midiInThreadFailure, 0⟩)
    else
      if startResult = 0 then
        ({ d with state := .RECORDING }, none)
      else
        ({ d with state := .OPENED, eventSets := d.eventSets + 1 },
         some ⟨.midiInException, startResult⟩)
  else (d, none)

/-- Loop guard of the worker thread CMIDIInDevice::HeaderProc,
MIDIInDevice.cpp lines 497 and 502: the worker keeps running (and touches
the queue after a wake) only while it observes `m_State == RECORDING`. -/
def headerProcContinues (s : InState) : Bool := s == .RECORDING

/-- CMIDIInDevice opening constructor, MIDIInDevice.cpp lines 178-191: from
a fresh closed object, Open(DeviceId) (the initial implicit Close performs
no driver call); then, if `CreateEvent` fails (`eventOk = false`), Close()
is performed (driver outcome `closeResult`) and CMIDIInEventFailure is
thrown — unless that Close itself throws, in which case its exception
surfaces instead. -/
def inCtorOpened (openResult : Nat) (eventOk : Bool) (closeResult : Nat) :
    InDevice × Option CppExc :=
  let d0 : InDevice := ⟨.CLOSED, [], 0, false⟩
  match inOpen 0 openResult d0 with
  | (d1, some e) => (d1, some e)
  | (d1, none) =>
    if eventOk then (d1, none)
    else
      match inClose closeResult d1 with
      | (d2, some e) => (d2, some e)
      | (d2, none) => (d2, some ⟨.midiInEventFailure, 0⟩)

/-- CMIDIOutDevice state enum, MIDIOutDevice.h line 203. -/
inductive OutState
  | CLOSED
  | OPENED
deriving DecidableEq

/-- Abstract state of a CMIDIOutDevice object, with the same reading of the
fields as for InDevice. -/
structure OutDevice where
  state : OutState
  queue : List Nat
  eventSets : Nat
  handleOwned : Bool
deriving DecidableEq

/-- CMIDIOutDevice::Close, MIDIOutDevice.cpp lines 237-254: if opened, set
the state to CLOSED, signal the worker once, empty the header queue, and
call `::midiOutClose`. The driver outcome (`closeResult`) is discarded by
the source — no failure is ever reported, and the handle is released
unconditionally. -/
def outClose (closeResult : Nat) (d : OutDevice) : OutDevice × Option CppExc :=
  if d.state = .OPENED then
    ({ d with state := .CLOSED, eventSets := d.eventSets + 1,
              queue := removeAll d.queue, handleOwned := false }, none)
  else (d, none)

/-- CMIDIOutDevice::Open, MIDIOutDevice.cpp lines 201-233: first Close
(which never throws); if `::CreateThread` fails (`threadOk = false`),
throws CMIDIOutThreadFailure; then `::midiOutOpen` (outcome `openResult`):
on success the state becomes OPENED and a handle is owned, on failure the
signal is set once and a CMIDIOutException is thrown. -/
def outOpen (closeResult : Nat) (threadOk : Bool) (openResult : Nat)
    (d : OutDevice) : OutDevice × Option CppExc :=
  let d1 := (outClose closeResult d).1
  if !threadOk then
    (d1, some ⟨.midiOutThreadFailure, 0⟩)
  else
    if openResult = 0 then
      ({ d1 with state := .OPENED, handleOwned := true }, none)
    else
      ({ d1 with eventSets := d1.eventSets + 1 },
       some ⟨.midiOutException, openResult⟩)

/-- CMIDIOutDevice opening constructor, MIDIOutDevice.cpp lines 174-186:
from a fresh closed object, Open(DeviceId); then, if `CreateEvent` fails
(`eventOk = false`), Close() is performed (it never throws) and
CMIDIOutEventFailure is thrown. -/
def outCtorOpened (threadOk : Bool) (openResult : Nat) (eventOk : Bool)
    (closeResult : Nat) : OutDevice × Option CppExc :=
  let d0 : OutDevice := ⟨.CLOSED, [], 0, false⟩
  match outOpen 0 threadOk openResult d0 with
  | (d1, some e) => (d1, some e)
  | (d1, none) =>
    if eventOk then (d1, none)
    else ((outClose closeResult d1).1, some ⟨.midiOutEventFailure, 0⟩)

/-- CMIDIOutDevice::SendMsg(DWORD), MIDIOutDevice.cpp lines 258-269: only
acts when OPENED, in which case `::midiOutShortMsg` is called (outcome
`shortResult`) and a CMIDIOutException is thrown on failure. The final
Bool records whether the driver call was issued. -/
def outSendShort (shortResult : Nat) (d : OutDevice) :
    OutDevice × Option CppExc × Bool :=
  if d.state = .OPENED then
    if shortResult = 0 then (d, none, true)
    else (d, some ⟨.midiOutException, shortResult⟩, true)
  else (d, none, false)

/-- Resource accounting for one long-message submission: the exception
propagated to the caller (if any), whether the header object was
allocated (construction completed), whether its buffer was prepared with
the driver, whether the driver unprepare ran (the header destructor), and
whether the header object was deleted. A header that was allocated and
prepared but neither enqueued nor deleted is leaked. -/
structure SysExOutcome where
  thrown : Option CppExc
  allocated : Bool
  prepared : Bool
  unprepared : Bool
  deleted : Bool
deriving DecidableEq

/-- CMIDIInDevice::AddSysExBuffer, MIDIInDevice.cpp lines 260-293 (with the
CMIDIInHeader constructor, lines 37-56, and CMIDIInHeader::AddSysExBuffer,
lines 68-78). Not gated on the session state. First try-block: `new
CMIDIInHeader` — on allocation failure (`allocOk = false`) the runtime
throws std::bad_alloc, caught by `catch (const std::bad_alloc &)` and
rethrown as CMIDIInMemFailure; on `::midiInPrepareHeader` failure (outcome
`prepareResult`) the constructor throws CMIDIInException, tested against
the clauses `catch (const std::bad_alloc &)` and `catch (const
CMIDIInDevice &)` (the latter rethrows). Second try-block:
`::midiInAddBuffer` (outcome `addBufferResult`); on failure the thrown
CMIDIInException is tested against the sole clause `catch (const
CMIDIInDevice &)`, whose body is `delete Header; throw;` — if the clause
does not match, the exception propagates without the delete. On success
the header is enqueued. -/
def inAddSysExBuffer (allocOk : Bool) (prepareResult addBufferResult : Nat)
    (hdr : Nat) (d : InDevice) : InDevice × SysExOutcome :=
  if !allocOk then
    (d, ⟨some ⟨.midiInMemFailure, 0⟩, false, false, false, false⟩)
  else if prepareResult ≠ 0 then
    let e : CppExc := ⟨.midiInException, prepareResult⟩
    if catches e.cls .stdBadAlloc then
      (d, ⟨some ⟨.midiInMemFailure, 0⟩, false, false, false, false⟩)
    else if catches e.cls .midiInDeviceClass then
      (d, ⟨some e, false, false, false, false⟩)
    else
      (d, ⟨some e, false, false, false, false⟩)
  else if addBufferResult ≠ 0 then
    let e : CppExc := ⟨.midiInException, addBufferResult⟩
    if catches e.cls .midiInDeviceClass then
      (d, ⟨some e, true, true, true, true⟩)
    else
      (d, ⟨some e, true, true, false, false⟩)
  else
    ({ d with queue := addHeader d.queue hdr },
     ⟨none, true, true, false, false⟩)

/-- CMIDIOutDevice::SendMsg(LPSTR, DWORD), MIDIOutDevice.cpp lines 273-310
(with the CMIDIOutHeader constructor, lines 35-54, and
CMIDIOutHeader::SendMsg, lines 66-75). Only acts when OPENED. First
try-block: `new CMIDIOutHeader` — allocation failure becomes
CMIDIOutMemFailure; `::midiOutPrepareHeader` failure (outcome
`prepareResult`) throws CMIDIOutException, tested against `catch (const
std::bad_alloc &)` and `catch (const CMIDIOutException &)` (the latter
rethrows). Second try-block: `::midiOutLongMsg` (outcome `longMsgResult`);
on failure the thrown CMIDIOutException is tested against the sole clause
`catch (const CMIDIOutException &)`, whose body is `delete Header;` with
no rethrow — when it matches, the function returns normally. On success
the header is enqueued. -/
def outSendLong (allocOk : Bool) (prepareResult longMsgResult : Nat)
    (hdr : Nat) (d : OutDevice) : OutDevice × SysExOutcome :=
  if d.state = .OPENED then
    if !allocOk then
      (d, ⟨some ⟨.midiOutMemFailure, 0⟩, false, false, false, false⟩)
    else if prepareResult ≠ 0 then
      let e : CppExc := ⟨.midiOutException, prepareResult⟩
      if catches e.cls .stdBadAlloc then
        (d, ⟨some ⟨.midiOutMemFailure, 0⟩, false, false, false, false⟩)
      else if catches e.cls .midiOutException then
        (d, ⟨some e, false, false, false, false⟩)
      else
        (d, ⟨some e, false, false, false, false⟩)
    else if longMsgResult ≠ 0 then
      let e : CppExc := ⟨.midiOutException, longMsgResult⟩
      if catches e.cls .midiOutException then
        (d, ⟨none, true, true, true, true⟩)
      else
        (d, ⟨some e, true, true, false, false⟩)
    else
      ({ d with queue := addHeader d.queue hdr },
       ⟨none, true, true, false, false⟩)
  else
    (d, ⟨none, false, false, false, false⟩)

/-- RemoveAll leaves the queue empty. -/
theorem removeAll_eq_nil : ∀ q : List Nat, removeAll q = []
  | [] => rfl
  | _ :: t => removeAll_eq_nil t

/-- Bitwise or acts as addition when the low bits of the left operand are
clear and the right operand fits in them. -/
theorem lor_eq_add_of_lt {a b : Nat} (i : Nat) (ha : a % 2 ^ i = 0)
    (hb : b < 2 ^ i) : a ||| b = a + b := by
  have hk : 2 ^ i * (a / 2 ^ i) = a := by
    have := Nat.div_add_mod a (2 ^ i)
    omega
  calc a ||| b = 2 ^ i * (a / 2 ^ i) ||| b := by rw [hk]
    _ = 2 ^ i * (a / 2 ^ i) + b := (Nat.mul_add_lt_is_or hb _).symm
    _ = a + b := by rw [hk]

/-- The channel-form pack produces the arithmetic byte layout
status + data1 * 2^8 + data2 * 2^16 when its arguments are in range. -/
theorem packShortMsg4_eq_add (c ch d1 d2 : Nat) (hc : c < 256)
    (hc0 : c % 16 = 0) (hch : ch < 16) (h1 : d1 < 256) (h2 : d2 < 256) :
    packShortMsg4 c ch d1 d2 = c + ch + d1 * 256 + d2 * 65536 := by
  have e1 : c ||| ch = c + ch := by
    have : ch < 2 ^ 4 := by norm_num; omega
    have := lor_eq_add_of_lt 4 (a := c) (b := ch) (by norm_num; omega) this
    simpa using this
  have e2 : (c + ch) ||| (d1 <<< 8) = d1 * 256 + (c + ch) := by
    rw [Nat.lor_comm, Nat.shiftLeft_eq]
    exact lor_eq_add_of_lt 8 (by simp [Nat.mul_mod_left]) (by norm_num; omega)
  have e3 : (d1 * 256 + (c + ch)) ||| (d2 <<< 16) =
      d2 * 65536 + (d1 * 256 + (c + ch)) := by
    rw [Nat.lor_comm, Nat.shiftLeft_eq]
    exact lor_eq_add_of_lt 16 (by norm_num [Nat.mul_mod_left])
      (by norm_num; omega)
  have hlt : d2 * 65536 + (d1 * 256 + (c + ch)) < dwordMod := by
    norm_num [dwordMod]; omega
  calc packShortMsg4 c ch d1 d2
      = (((c ||| ch) ||| (d1 <<< 8)) ||| (d2 <<< 16)) % dwordMod := by
        simp [packShortMsg4, SHORT_MSG_SHIFT]
    _ = (d2 * 65536 + (d1 * 256 + (c + ch))) % dwordMod := by
        rw [e1, e2, e3]
    _ = d2 * 65536 + (d1 * 256 + (c + ch)) := Nat.mod_eq_of_lt hlt
    _ = c + ch + d1 * 256 + d2 * 65536 := by omega

/-- Masking a command-plus-channel byte with 240 recovers the command
nibble. -/
theorem land_240_recover : ∀ k, k < 16 → ∀ m, m < 16 →
    (16 * k + m) &&& 240 = 16 * k := by decide

/-- Masking with 240 only reads the low byte. -/
theorem land_240_mod_256 (x : Nat) : x &&& 240 = (x % 256) &&& 240 := by
  have h255 : (240 : Nat) = 255 &&& 240 := by decide
  conv_lhs => rw [h255, ← Nat.land_assoc]
  have : x &&& 255 = x % 256 := by
    have := Nat.and_pow_two_sub_one_eq_mod x 8
    norm_num at this
    exact this
  rw [this]

/-- C1: the three-byte PackShortMsg/UnpackShortMsg pair does NOT round-trip:
PackShortMsg (MIDIOutDevice.cpp line 342) shifts DataByte2 by
SHORT_MSG_SHIFT instead of SHORT_MSG_SHIFT * 2, so at Status = 144,
DataByte1 = 60, DataByte2 = 100 the unpack (MIDIInDevice.cpp lines 396-405)
returns (144, 124, 0) — DataByte1 comes back as 60 ||| 100 = 124 and
DataByte2 as 0 — instead of the original (144, 60, 100). -/
theorem c1_pack3_unpack3_mismatch :
    unpackShortMsg3 (packShortMsg3 144 60 100) = (144, 124, 0) ∧
    (144, 124, 0) ≠ ((144, 60, 100) : Nat × Nat × Nat) := by
  decide

/-- C8: for every command byte in [0,256) with zero low nibble, channel in
[0,16) and data bytes in [0,128), packing with the channel form
PackShortMsg (MIDIOutDevice.cpp lines 347-355) and unpacking with the
channel form UnpackShortMsg (MIDIInDevice.cpp lines 409-420) returns
exactly the original command, channel and data bytes. -/
theorem c8_pack4_unpack4_roundtrip (c ch d1 d2 : Nat) (hc : c < 256)
    (hc0 : c % 16 = 0) (hch : ch < 16) (h1 : d1 < 128) (h2 : d2 < 128) :
    unpackShortMsg4 (packShortMsg4 c ch d1 d2) = (c, ch, d1, d2) := by
  rw [packShortMsg4_eq_add c ch d1 d2 hc hc0 hch (by omega) (by omega)]
  set M := c + ch + d1 * 256 + d2 * 65536 with hM
  have hand255 : ∀ x : Nat, x &&& 255 = x % 256 := by
    intro x
    have := Nat.and_pow_two_sub_one_eq_mod x 8
    norm_num at this
    exact this
  have hcmd : (M &&& (dwordMod - 1 - SHORT_MSG_MASK)) % 256 = c := by
    have hmask : dwordMod - 1 - SHORT_MSG_MASK = 4294967280 := by
      norm_num [dwordMod, SHORT_MSG_MASK]
    have s1 : (M &&& 4294967280) % 256 = M &&& 240 := by
      rw [← hand255]
      rw [Nat.land_assoc]
      have h240 : (4294967280 : Nat) &&& 255 = 240 := by decide
      rw [h240]
    have s2 : M &&& 240 = (M % 256) &&& 240 := land_240_mod_256 M
    have s3 : M % 256 = c + ch := by omega
    have s4 : (c + ch) &&& 240 = c := by
      have hrep : c = 16 * (c / 16) := by omega
      have := land_240_recover (c / 16) (by omega) ch hch
      rw [hrep]
      rw [hrep] at this ⊢
      simpa using this
    rw [hmask, s1, s2, s3, s4]
  have hchan : (M &&& SHORT_MSG_MASK) % 256 = ch := by
    have s1 : M &&& SHORT_MSG_MASK = M % 16 := by
      have := Nat.and_pow_two_sub_one_eq_mod M 4
      norm_num at this
      simpa [SHORT_MSG_MASK] using this
    rw [s1]
    omega
  have hd1 : (M >>> SHORT_MSG_SHIFT) % 256 = d1 := by
    rw [SHORT_MSG_SHIFT, Nat.shiftRight_eq_div_pow]
    norm_num
    omega
  have hd2 : (M >>> (SHORT_MSG_SHIFT * 2)) % 256 = d2 := by
    rw [SHORT_MSG_SHIFT, Nat.shiftRight_eq_div_pow]
    norm_num
    omega
  simp only [unpackShortMsg4, Prod.mk.injEq]
  exact ⟨hcmd, hchan, hd1, hd2⟩

/-- Witness for c8_pack4_unpack4_roundtrip at command 144 (Note On),
channel 3, data bytes 60 and 100. -/
theorem c8_pack4_unpack4_roundtrip_witness :
    144 < 256 ∧ 144 % 16 = 0 ∧ 3 < 16 ∧ 60 < 128 ∧ 100 < 128 ∧
    unpackShortMsg4 (packShortMsg4 144 3 60 100) = (144, 3, 60, 100) :=
  ⟨by decide, by decide, by decide, by decide, by decide,
   c8_pack4_unpack4_roundtrip 144 3 60 100 (by decide) (by decide)
     (by decide) (by decide) (by decide)⟩

/-- C2: when the driver rejects the submit call after the buffer was
successfully prepared, neither device behaves as claimed. With alloc ok,
prepare ok (0) and submit rejected (code 1, header identity 7):
CMIDIInDevice::AddSysExBuffer propagates the error but — because the
handler catches `const CMIDIInDevice &` while the thrown object is a
CMIDIInException — never runs `delete Header`, leaking the prepared,
never-unprepared descriptor (not enqueued either); the long-message
CMIDIOutDevice::SendMsg deletes (and so unprepares) the descriptor but
returns normally, reporting no error to the caller. -/
theorem c2_submit_rejection_mishandled :
    (inAddSysExBuffer true 0 1 7 ⟨.OPENED, [], 0, true⟩).2 =
      ⟨some ⟨.midiInException, 1⟩, true, true, false, false⟩ ∧
    (inAddSysExBuffer true 0 1 7 ⟨.OPENED, [], 0, true⟩).1.queue = [] ∧
    (outSendLong true 0 1 7 ⟨.OPENED, [], 0, true⟩).2 =
      ⟨none, true, true, true, true⟩ ∧
    (outSendLong true 0 1 7 ⟨.OPENED, [], 0, true⟩).1.queue = [] := by
  decide

/-- C3: from the RECORDING state, StopRecording empties the header queue
and leaves the session OPENED. -/
theorem c3_stopRecording_empties_queue (d : InDevice)
    (h : d.state = .RECORDING) :
    (inStopRecording d).queue = [] ∧ (inStopRecording d).state = .OPENED := by
  simp [inStopRecording, h, removeAll_eq_nil]

/-- Witness for c3_stopRecording_empties_queue on a recording session with
two queued headers. -/
theorem c3_stopRecording_empties_queue_witness :
    (⟨.RECORDING, [1, 2], 0, true⟩ : InDevice).state = .RECORDING ∧
    ((inStopRecording ⟨.RECORDING, [1, 2], 0, true⟩).queue = [] ∧
     (inStopRecording ⟨.RECORDING, [1, 2], 0, true⟩).state = .OPENED) :=
  ⟨rfl, c3_stopRecording_empties_queue ⟨.RECORDING, [1, 2], 0, true⟩ rfl⟩

/-- C4: StartRecording invoked in the OPENED state, when it fails, leaves
the session OPENED: on worker-thread creation failure it throws
CMIDIInThreadFailure with the object untouched, and on driver rejection it
ends OPENED with the completion signal set exactly once and throws the
driver error, so the worker loop guard (headerProcContinues) is false and
the spawned worker exits. -/
theorem c4_startRecording_failure_rolls_back (d : InDevice) (threadOk : Bool)
    (startResult : Nat) (h : d.state = .OPENED) :
    (threadOk = false →
      inStartRecording threadOk startResult d =
        (d, some ⟨.midiInThreadFailure, 0⟩) ∧ d.state = .OPENED) ∧
    (threadOk = true → startResult ≠ 0 →
      (inStartRecording threadOk startResult d).1.state = .OPENED ∧
      (inStartRecording threadOk startResult d).1.eventSets =
        d.eventSets + 1 ∧
      (inStartRecording threadOk startResult d).2 =
        some ⟨.midiInException, startResult⟩ ∧
      headerProcContinues (inStartRecording threadOk startResult d).1.state =
        false) := by
  constructor
  · intro ht
    subst ht
    exact ⟨by simp [inStartRecording, h], h⟩
  · intro ht hs
    subst ht
    simp [inStartRecording, h, hs, headerProcContinues]

/-- Witness for c4_startRecording_failure_rolls_back on an opened session
with driver start rejected (code 5). -/
theorem c4_startRecording_failure_rolls_back_witness :
    (⟨.OPENED, [], 0, true⟩ : InDevice).state = .OPENED ∧
    ((false = false →
      inStartRecording false 5 ⟨.OPENED, [], 0, true⟩ =
        ((⟨.OPENED, [], 0, true⟩ : InDevice),
          some ⟨.midiInThreadFailure, 0⟩) ∧
      (⟨.OPENED, [], 0, true⟩ : InDevice).state = .OPENED) ∧
     (false = true → 5 ≠ 0 →
      (inStartRecording false 5 ⟨.OPENED, [], 0, true⟩).1.state = .OPENED ∧
      (inStartRecording false 5 ⟨.OPENED, [], 0, true⟩).1.eventSets =
        (⟨.OPENED, [], 0, true⟩ : InDevice).eventSets + 1 ∧
      (inStartRecording false 5 ⟨.OPENED, [], 0, true⟩).2 =
        some ⟨.midiInException, 5⟩ ∧
      headerProcContinues
        (inStartRecording false 5 ⟨.OPENED, [], 0, true⟩).1.state =
        false)) :=
  ⟨rfl, c4_startRecording_failure_rolls_back ⟨.OPENED, [], 0, true⟩ false 5 rfl⟩

/-- C5 counterexample: an opened CMIDIOutDevice whose driver close call
fails (closeResult = 1) still reports no error — Close transitions to
CLOSED and returns none, contradicting the claim that Close fails with a
driver-derived error whenever the driver close reports failure. -/
theorem c5_outClose_ignores_driver_failure :
    (outClose 1 ⟨.OPENED, [], 0, true⟩).2 = none ∧
    (outClose 1 ⟨.OPENED, [], 0, true⟩).1.state = .CLOSED ∧
    (outClose 1 ⟨.OPENED, [], 0, true⟩).1.handleOwned = false := by
  decide

/-- C5 (amended): for a session in the Open state, CMIDIInDevice::Close
releases the handle and transitions to Closed when the driver close
succeeds, and surfaces the driver error (state and handle unchanged) when
the driver close fails; CMIDIOutDevice::Close always transitions to Closed
and releases the handle, discarding the driver close result and never
reporting an error. -/
theorem c5_close_amended (din : InDevice) (dout : OutDevice) (r : Nat)
    (hin : din.state = .OPENED) (hout : dout.state = .OPENED) :
    ((inClose 0 din).1.state = .CLOSED ∧
     (inClose 0 din).1.handleOwned = false ∧
     (inClose 0 din).2 = none) ∧
    (r ≠ 0 →
      (inClose r din).2 = some ⟨.midiInException, r⟩ ∧
      (inClose r din).1.state = .OPENED ∧
      (inClose r din).1.handleOwned = din.handleOwned) ∧
    ((outClose r dout).1.state = .CLOSED ∧
     (outClose r dout).1.handleOwned = false ∧
     (outClose r dout).2 = none) := by
  have hnr : ¬ din.state = .RECORDING := by rw [hin]; simp
  refine ⟨?_, ?_, ?_⟩
  · simp [inClose, inStopRecording, hnr, hin]
  · intro hr
    simp [inClose, inStopRecording, hnr, hin, hr]
  · simp [outClose, hout]

/-- Witness for c5_close_amended on opened sessions with a failing driver
close (code 1). -/
theorem c5_close_amended_witness :
    (⟨.OPENED, [], 0, true⟩ : InDevice).state = .OPENED ∧
    (⟨.OPENED, [], 0, true⟩ : OutDevice).state = .OPENED ∧
    (((inClose 0 ⟨.OPENED, [], 0, true⟩).1.state = .CLOSED ∧
      (inClose 0 ⟨.OPENED, [], 0, true⟩).1.handleOwned = false ∧
      (inClose 0 ⟨.OPENED, [], 0, true⟩).2 = none) ∧
     ((1 : Nat) ≠ 0 →
       (inClose 1 ⟨.OPENED, [], 0, true⟩).2 =
         some ⟨.midiInException, 1⟩ ∧
       (inClose 1 ⟨.OPENED, [], 0, true⟩).1.state = .OPENED ∧
       (inClose 1 ⟨.OPENED, [], 0, true⟩).1.handleOwned =
         (⟨.OPENED, [], 0, true⟩ : InDevice).handleOwned) ∧
     ((outClose 1 ⟨.OPENED, [], 0, true⟩).1.state = .CLOSED ∧
      (outClose 1 ⟨.OPENED, [], 0, true⟩).1.handleOwned = false ∧
      (outClose 1 ⟨.OPENED, [], 0, true⟩).2 = none)) :=
  ⟨rfl, rfl,
   c5_close_amended ⟨.OPENED, [], 0, true⟩ ⟨.OPENED, [], 0, true⟩ 1 rfl rfl⟩

/-- Close on an input device with a succeeding driver close always lands in
the CLOSED state and reports no error, from every starting state. -/
theorem inClose_zero (d : InDevice) :
    (inClose 0 d).2 = none ∧ (inClose 0 d).1.state = .CLOSED := by
  rcases d with ⟨s, q, ev, hd⟩
  cases s <;> simp [inClose, inStopRecording]

/-- Close on an output device always lands in the CLOSED state and reports
no error, from every starting state and driver outcome. -/
theorem outClose_closed (r : Nat) (d : OutDevice) :
    (outClose r d).2 = none ∧ (outClose r d).1.state = .CLOSED := by
  rcases d with ⟨s, q, ev, hd⟩
  cases s <;> simp [outClose]

/-- C6: from any session state, Open first performs an implicit Close, so
after a successful driver open the state is OPENED and exactly one device
handle is owned (the handle flag of the single m_DevHandle member); if the
driver open fails the session is left CLOSED and the driver error is
thrown. Stated for CMIDIInDevice (with the implicit close succeeding) and
CMIDIOutDevice (with worker-thread creation succeeding; its implicit Close
never fails). -/
theorem c6_open_implicit_close (din : InDevice) (dout : OutDevice)
    (closeR openR : Nat) (hc : closeR = 0) :
    ((openR = 0 →
       (inOpen closeR openR din).1.state = .OPENED ∧
       (inOpen closeR openR din).1.handleOwned = true ∧
       (inOpen closeR openR din).2 = none) ∧
     (openR ≠ 0 →
       (inOpen closeR openR din).1.state = .CLOSED ∧
       (inOpen closeR openR din).2 = some ⟨.midiInException, openR⟩)) ∧
    ((openR = 0 →
       (outOpen closeR true openR dout).1.state = .OPENED ∧
       (outOpen closeR true openR dout).1.handleOwned = true ∧
       (outOpen closeR true openR dout).2 = none) ∧
     (openR ≠ 0 →
       (outOpen closeR true openR dout).1.state = .CLOSED ∧
       (outOpen closeR true openR dout).2 =
         some ⟨.midiOutException, openR⟩)) := by
  subst hc
  obtain ⟨he, hs⟩ := inClose_zero din
  obtain ⟨hoe, hos⟩ := outClose_closed 0 dout
  constructor
  · rcases hm : inClose 0 din with ⟨d1, e1⟩
    rw [hm] at he hs
    simp only at he hs
    subst he
    constructor
    · intro ho
      subst ho
      simp [inOpen, hm, hs]
    · intro ho
      simp [inOpen, hm, ho, hs]
  · constructor
    · intro ho
      subst ho
      simp [outOpen]
    · intro ho
      simp [outOpen, ho, hos]

/-- Witness for c6_open_implicit_close: a recording input session and an
opened output session, both re-opened successfully. -/
theorem c6_open_implicit_close_witness :
    (0 : Nat) = 0 ∧
    ((((0 : Nat) = 0 →
       (inOpen 0 0 ⟨.RECORDING, [3], 0, true⟩).1.state = .OPENED ∧
       (inOpen 0 0 ⟨.RECORDING, [3], 0, true⟩).1.handleOwned = true ∧
       (inOpen 0 0 ⟨.RECORDING, [3], 0, true⟩).2 = none) ∧
      ((0 : Nat) ≠ 0 →
       (inOpen 0 0 ⟨.RECORDING, [3], 0, true⟩).1.state = .CLOSED ∧
       (inOpen 0 0 ⟨.RECORDING, [3], 0, true⟩).2 =
         some ⟨.midiInException, 0⟩)) ∧
     (((0 : Nat) = 0 →
       (outOpen 0 true 0 ⟨.OPENED, [], 0, true⟩).1.state = .OPENED ∧
       (outOpen 0 true 0 ⟨.OPENED, [], 0, true⟩).1.handleOwned = true ∧
       (outOpen 0 true 0 ⟨.OPENED, [], 0, true⟩).2 = none) ∧
      ((0 : Nat) ≠ 0 →
       (outOpen 0 true 0 ⟨.OPENED, [], 0, true⟩).1.state = .CLOSED ∧
       (outOpen 0 true 0 ⟨.OPENED, [], 0, true⟩).2 =
         some ⟨.midiOutException, 0⟩))) :=
  ⟨rfl, c6_open_implicit_close ⟨.RECORDING, [3], 0, true⟩
    ⟨.OPENED, [], 0, true⟩ 0 0 rfl⟩

/-- Running the queue operations preserves the bookkeeping identity:
reclamation log plus remaining queue equals the starting log and queue
plus all later submissions, in order. -/
theorem queueRun_invariant (ops : List QueueOp) : ∀ q log : List Nat,
    (ops.foldl queueStep (q, log)).2 ++ (ops.foldl queueStep (q, log)).1 =
      log ++ q ++ submissions ops := by
  induction ops with
  | nil =>
    intro q log
    simp [submissions]
  | cons op t ih =>
    intro q log
    cases op with
    | add hdr =>
      simp only [List.foldl_cons]
      rw [show queueStep (q, log) (QueueOp.add hdr) = (q ++ [hdr], log)
        from rfl]
      rw [ih]
      simp [submissions, List.append_assoc]
    | remove =>
      simp only [List.foldl_cons]
      cases q with
      | nil =>
        rw [show queueStep ([], log) QueueOp.remove = ([], log) from rfl]
        rw [ih]
        simp [submissions]
      | cons h tq =>
        rw [show queueStep (h :: tq, log) QueueOp.remove = (tq, log ++ [h])
          from rfl]
        rw [ih]
        simp [submissions, List.append_assoc]

/-- C7: for every sequence of AddHeader and RemoveHeader operations, the
reclamation log followed by the pending queue equals the full submission
sequence — so headers are reclaimed exactly in submission order (the log
is an initial segment of the submissions); moreover AddHeader enqueues at
the tail and RemoveHeader removes the current head. -/
theorem c7_fifo_reclaim_order (ops : List QueueOp) :
    (queueRun ops).2 ++ (queueRun ops).1 = submissions ops ∧
    (∀ q hdr, addHeader q hdr = q ++ [hdr]) ∧
    (∀ hdr tq, removeHeader (hdr :: tq) = (tq, some hdr)) := by
  refine ⟨?_, fun q hdr => rfl, fun hdr tq => rfl⟩
  have h := queueRun_invariant ops [] []
  simpa [queueRun] using h

/-- C9: when the opening constructor succeeds in opening the device
(openResult 0) and then fails to create the signalling event, both device
classes perform Close before the event-failure exception surfaces: the
final object owns no handle and is CLOSED. For CMIDIInDevice the rollback
driver close succeeds (0); for CMIDIOutDevice the driver close outcome (1)
is irrelevant — the handle is dropped regardless. -/
theorem c9_ctor_event_failure_releases_handle :
    inCtorOpened 0 false 0 =
      (⟨.CLOSED, [], 0, false⟩, some ⟨.midiInEventFailure, 0⟩) ∧
    outCtorOpened true 0 false 1 =
      (⟨.CLOSED, [], 1, false⟩, some ⟨.midiOutEventFailure, 0⟩) := by
  decide

/-- C10: on a CMIDIOutDevice that is not open, both SendMsg overloads are
silent no-ops: no exception, no driver submission (the short form issues
no driver call; the long form allocates and prepares nothing), and the
device state and header queue are returned unchanged. -/
theorem c10_sendMsg_closed_noop (d : OutDevice) (r : Nat) (a : Bool)
    (p l hdr : Nat) (hs : d.state = .CLOSED) :
    outSendShort r d = (d, none, false) ∧
    outSendLong a p l hdr d = (d, ⟨none, false, false, false, false⟩) := by
  have hno : ¬ d.state = .OPENED := by rw [hs]; simp
  simp [outSendShort, outSendLong, hno]

/-- Witness for c10_sendMsg_closed_noop on a closed device with failing
driver outcomes supplied. -/
theorem c10_sendMsg_closed_noop_witness :
    (⟨.CLOSED, [], 0, false⟩ : OutDevice).state = .CLOSED ∧
    (outSendShort 1 ⟨.CLOSED, [], 0, false⟩ =
      ((⟨.CLOSED, [], 0, false⟩ : OutDevice), none, false) ∧
     outSendLong true 0 1 7 ⟨.CLOSED, [], 0, false⟩ =
      ((⟨.CLOSED, [], 0, false⟩ : OutDevice),
        ⟨none, false, false, false, false⟩)) :=
  ⟨rfl, c10_sendMsg_closed_noop ⟨.CLOSED, [], 0, false⟩ 1 true 0 1 7 rfl⟩

end MIDI
